import Mathlib

/-!
Shallow embedding of the task-management backend (Express + PostgreSQL).

The definitions below translate, function by function, the service and
controller code of the repository:

* `TaskService` (`src/unnamed/part_012`): `buildWhereClause`,
  `buildOrderClause`, `buildPaginationClause`, `getAllTasks`,
  `createTask`, `updateTask`.
* `UserService` (`src/unnamed/part_014`, the variant with the uniqueness
  pre-checks and the delete cascade): `getUserByUsername`, `getUserByEmail`,
  `createUser`, `updateUser`, `deleteUser`.
* `TaskController.getAllTasks`
  (`src/task-management-system/backend/src/controllers/TaskController.ts`):
  the query-parameter validation and the response assembly.

The relational store is modelled as an explicit in-memory state (`DB`);
each SQL statement of the source becomes a pure function on that state.
JavaScript truthiness tests that appear in the source (`if (filters.search)`,
`description || null`, `limit && limit > 0`, ...) are mirrored by explicit
helper functions so that every branch of the source is visible here.
-/

namespace TMS

/-- The `status` column of `tasks`: `CHECK (status IN ('todo','in-progress','done'))`. -/
inductive Status where
  | todo
  | inProgress
  | done
deriving DecidableEq, Repr

/-- The string stored in the `status` column for each enumerated value. -/
def statusStr : Status → String
  | .todo => "todo"
  | .inProgress => "in-progress"
  | .done => "done"

/-- The `priority` column of `tasks`: `CHECK (priority IN ('low','medium','high'))`. -/
inductive Priority where
  | low
  | medium
  | high
deriving DecidableEq, Repr

/-- The string stored in the `priority` column for each enumerated value. -/
def priorityStr : Priority → String
  | .low => "low"
  | .medium => "medium"
  | .high => "high"

/-- A row of the `users` table (`userInterface.ts`). Timestamps are modelled
as natural numbers (`DEFAULT CURRENT_TIMESTAMP` at insert time). -/
structure User where
  id : Int
  username : String
  email : String
  full_name : String
  created_at : Nat
  updated_at : Nat
deriving DecidableEq, Repr

/-- A row of the `tasks` table (`taskInterface.ts`). `assigned_to` is the
nullable foreign key to `users(id)`; there is no close-timestamp column in
the schema. -/
structure Task where
  id : Int
  title : String
  description : Option String
  status : Status
  priority : Priority
  due_date : Option String
  assigned_to : Option Int
  created_at : Nat
  updated_at : Nat
deriving DecidableEq, Repr

/-- The relational state the services read and write through the pg pool. -/
structure DB where
  users : List User
  tasks : List Task
deriving DecidableEq, Repr

/-- JavaScript truthiness of an optional string value: `undefined`, and the
empty string, are falsy (`if (filters.search)`, `if (filters.status)`, ...). -/
def strTruthy : Option String → Bool
  | some s => s ≠ ""
  | none => false

/-- `x || null` applied to an optional string field (`description || null`,
`due_date || null` in `createTask`): a missing or empty string becomes NULL. -/
def jsOrNullStr : Option String → Option String
  | some s => if s = "" then none else some s
  | none => none

/-- `x || null` applied to an optional numeric field (`assigned_to || null`
in `createTask`): a missing value or the falsy number 0 becomes NULL. -/
def jsOrNullInt : Option Int → Option Int
  | some n => if n = 0 then none else some n
  | none => none

/-- JavaScript `parseInt(s)` with radix 10, as used by
`TaskController.getAllTasks` on the `assignedTo` query parameter: skip
leading whitespace, read an optional sign and then leading decimal digits;
`none` models `NaN` (no digits found). -/
def parseIntJS (s : String) : Option Int :=
  let cs := s.data.dropWhile (fun c => c = ' ' ∨ c = '\t' ∨ c = '\n' ∨ c = '\r')
  let signAndRest : Bool × List Char :=
    match cs with
    | '-' :: rest => (true, rest)
    | '+' :: rest => (false, rest)
    | _ => (false, cs)
  let digits := signAndRest.2.takeWhile Char.isDigit
  if digits.isEmpty then none
  else
    let n : Nat := digits.foldl (fun acc c => acc * 10 + (c.toNat - '0'.toNat)) 0
    some (if signAndRest.1 then -(n : Int) else (n : Int))

/-- Contiguous-substring test on character lists (the semantics of SQL
`LIKE '%pat%'` once case is fixed): `pat` occurs inside `hay`. -/
def listHasInfix (pat : List Char) : List Char → Bool
  | [] => pat.isEmpty
  | c :: rest => pat.isPrefixOf (c :: rest) || listHasInfix pat rest

/-- Case-insensitive substring containment: the semantics of
`t.title ILIKE '%search%'`. -/
def containsCI (hay pat : String) : Bool :=
  listHasInfix pat.toLower.data hay.toLower.data

/-- The `assignedTo` filter after `TaskController` validation: the literal
string `"unassigned"` or a parsed user id. -/
inductive AssignedTo where
  | unassigned
  | uid (n : Int)
deriving DecidableEq, Repr

/-- The filter/sort/pagination parameters handed to
`TaskService.getAllTasks` (`TaskQueryParams`). `status` and `priority`
arrive as raw query strings (the controller only casts them), `assignedTo`
has already been validated by the controller. -/
structure TaskQueryParams where
  status : Option String := none
  priority : Option String := none
  assignedTo : Option AssignedTo := none
  search : Option String := none
  sortBy : Option String := none
  sortOrder : Option String := none
  limit : Option Int := none
  offset : Option Int := none
deriving DecidableEq, Repr

/-- The conjunction of clauses emitted by `TaskService.buildWhereClause`,
evaluated on one task row:
* `if (filters.status)` → `t.status = $status`;
* `if (filters.priority)` → `t.priority = $priority`;
* `if (filters.assignedTo !== undefined)` → `t.assigned_to IS NULL` for the
  `"unassigned"` sentinel, else `t.assigned_to = $id`;
* `if (filters.search)` → `(t.title ILIKE '%s%' OR t.description ILIKE '%s%')`
  (a NULL description matches nothing).
Clauses are joined with `AND`; an absent (or falsy) parameter contributes
no clause. -/
def matchesWhere (f : TaskQueryParams) (t : Task) : Bool :=
  (if strTruthy f.status then statusStr t.status == f.status.getD "" else true)
    && (if strTruthy f.priority then priorityStr t.priority == f.priority.getD "" else true)
    && (match f.assignedTo with
        | none => true
        | some .unassigned => t.assigned_to == none
        | some (.uid n) => t.assigned_to == some n)
    && (if strTruthy f.search then
          containsCI t.title (f.search.getD "")
            || (match t.description with
                | some d => containsCI d (f.search.getD "")
                | none => false)
        else true)

/-- The sort-field allow-list of `TaskService.buildOrderClause`. -/
def validSortFields : List String :=
  ["created_at", "updated_at", "due_date", "title", "priority"]

/-- Effective sort field: a requested field outside the allow-list (or an
absent one) falls back to `created_at`. -/
def effectiveSortField (sortBy : Option String) : String :=
  if validSortFields.contains (sortBy.getD "") then sortBy.getD "" else "created_at"

/-- Comparison on nullable date strings under Postgres `ORDER BY ... ASC`
(`NULLS LAST` is the ascending default, so NULL sorts as the largest). -/
def optDateLe : Option String → Option String → Bool
  | _, none => true
  | none, some _ => false
  | some a, some b => a ≤ b

/-- Row comparison for one sort field, ascending. `priority` is a varchar
column, so Postgres orders it alphabetically. -/
def taskFieldLe (field : String) (a b : Task) : Bool :=
  if field = "updated_at" then a.updated_at ≤ b.updated_at
  else if field = "due_date" then optDateLe a.due_date b.due_date
  else if field = "title" then a.title ≤ b.title
  else if field = "priority" then priorityStr a.priority ≤ priorityStr b.priority
  else a.created_at ≤ b.created_at

/-- Insert into a list already sorted by `le` (helper for `sortTasks`). -/
def insertLe (le : Task → Task → Bool) (x : Task) : List Task → List Task
  | [] => [x]
  | y :: ys => if le x y then x :: y :: ys else y :: insertLe le x ys

/-- Sort by the boolean comparison `le` (insertion sort, a deterministic
model of the database's `ORDER BY`). -/
def sortByLe (le : Task → Task → Bool) : List Task → List Task
  | [] => []
  | x :: xs => insertLe le x (sortByLe le xs)

/-- `TaskService.buildOrderClause` applied to a result list: sort by the
allow-listed field, `ASC` only when `sortOrder === "asc"`, else `DESC`. -/
def sortTasks (sortBy sortOrder : Option String) (ts : List Task) : List Task :=
  let field := effectiveSortField sortBy
  if sortOrder = some "asc" then
    sortByLe (fun a b => taskFieldLe field a b) ts
  else
    sortByLe (fun a b => taskFieldLe field b a) ts

/-- The `LIMIT` part of `TaskService.buildPaginationClause`:
`if (limit && limit > 0) clause += LIMIT Math.min(limit, 100)`; otherwise no
`LIMIT` clause is emitted at all (no default page size). -/
def effLimit : Option Int → Option Nat
  | some l => if 0 < l then some (min l.toNat 100) else none
  | none => none

/-- The `OFFSET` part of `TaskService.buildPaginationClause`:
`if (offset && offset >= 0) clause += OFFSET offset`; `offset = 0` is falsy,
so omitting the clause has the same effect as offset 0. -/
def effOffset : Option Int → Nat
  | some o => if 0 < o then o.toNat else 0
  | none => 0

/-- Apply the pagination clause to the sorted rows. -/
def applyPagination (limit offset : Option Int) (ts : List Task) : List Task :=
  let dropped := ts.drop (effOffset offset)
  match effLimit limit with
  | some l => dropped.take l
  | none => dropped

/-- `TaskService.getAllTasks`: the main query filters, sorts and paginates;
the parallel count query counts the rows matching the same WHERE clause
without pagination. Returns `(rows, total)`. -/
def getAllTasks (db : DB) (q : TaskQueryParams) : List Task × Nat :=
  let filtered := db.tasks.filter (matchesWhere q)
  let rows := applyPagination q.limit q.offset (sortTasks q.sortBy q.sortOrder filtered)
  (rows, filtered.length)

example :
    getAllTasks ⟨[], [⟨1, "a", none, .todo, .low, none, none, 3, 3⟩]⟩
      { status := some "todo" } =
      ([⟨1, "a", none, .todo, .low, none, none, 3, 3⟩], 1) := by decide

example :
    getAllTasks ⟨[], [⟨1, "a", none, .todo, .low, none, none, 3, 3⟩]⟩
      { status := some "bogus" } = ([], 0) := by decide

/-- The raw query parameters reaching `TaskController.getAllTasks` after the
framework's parsing: `status`, `priority`, `assignedTo`, `search`, `sortBy`,
`sortOrder` are raw strings; `limit` and `offset` are the numeric results of
`parseInt` on the corresponding query strings when those are present. -/
structure RawListQuery where
  status : Option String := none
  priority : Option String := none
  assignedTo : Option String := none
  search : Option String := none
  sortBy : Option String := none
  sortOrder : Option String := none
  limit : Option Int := none
  offset : Option Int := none
deriving DecidableEq, Repr

/-- The error responses `TaskController.getAllTasks` can produce before or
instead of a result set. -/
inductive ApiError where
  | badRequest (error : String)
  | serverError (error : String)
deriving DecidableEq, Repr

/-- The pagination metadata block the controller attaches to the response. -/
structure Pagination where
  total : Nat
  count : Nat
  limit : Option Int
  offset : Int
  hasMore : Bool
deriving DecidableEq, Repr

/-- The JSON body of a successful `GET /api/tasks` response: the rows plus
pagination metadata. (The source attaches no other component.) -/
structure ListResponse where
  tasks : List Task
  pagination : Pagination
deriving DecidableEq, Repr

/-- The `assignedTo` validation step of `TaskController.getAllTasks`: the
sentinel `"unassigned"` passes through, anything else must `parseInt` to a
number or the request is rejected with a 400 response. -/
def validateAssignedTo : Option String → Except ApiError (Option AssignedTo)
  | none => .ok none
  | some s =>
      if s = "unassigned" then .ok (some .unassigned)
      else
        match parseIntJS s with
        | none => .error (.badRequest "Invalid assignedTo parameter")
        | some n => .ok (some (.uid n))

/-- `hasMore` as computed by the controller: only when `queryParams.limit`
is truthy, `(offset || 0) + tasks.length < total`; otherwise `false`. -/
def computeHasMore (limit offset : Option Int) (returned total : Nat) : Bool :=
  match limit with
  | some l => if l ≠ 0 then ((offset.getD 0).toNat + returned < total) else false
  | none => false

/-- `TaskController.getAllTasks`: validate `assignedTo`, reject a supplied
`limit` outside `[1, 100]` and a negative `offset` with 400 responses, then
run `TaskService.getAllTasks` and assemble the response with pagination
metadata. -/
def controllerGetAllTasks (db : DB) (q : RawListQuery) : Except ApiError ListResponse :=
  match validateAssignedTo q.assignedTo with
  | .error e => .error e
  | .ok assignedTo =>
      if q.limit ≠ none ∧ (q.limit.getD 0 < 1 ∨ q.limit.getD 0 > 100) then
        .error (.badRequest "Invalid limit parameter")
      else if q.offset ≠ none ∧ q.offset.getD 0 < 0 then
        .error (.badRequest "Invalid offset parameter")
      else
        let params : TaskQueryParams :=
          { status := q.status, priority := q.priority, assignedTo := assignedTo,
            search := q.search, sortBy := q.sortBy, sortOrder := q.sortOrder,
            limit := q.limit, offset := q.offset }
        let res := getAllTasks db params
        .ok { tasks := res.1,
              pagination :=
                { total := res.2,
                  count := res.1.length,
                  limit := q.limit,
                  offset := q.offset.getD 0,
                  hasMore := computeHasMore q.limit q.offset res.1.length res.2 } }

/-- The body of a `POST /api/tasks` request as typed by `CreateTaskData`. -/
structure CreateTaskData where
  title : String
  description : Option String := none
  status : Option Status := none
  priority : Option Priority := none
  due_date : Option String := none
  assigned_to : Option Int := none
deriving DecidableEq, Repr

/-- `TaskService.createTask`: destructuring defaults `status = "todo"`,
`priority = "medium"`; `description || null`, `due_date || null`,
`assigned_to || null`; then a single `INSERT ... RETURNING *`. The
`assigned_to` foreign key is enforced by the database
(`REFERENCES users(id)`, error 23503 → "Referenced user does not exist");
`created_at` and `updated_at` both come from `DEFAULT CURRENT_TIMESTAMP`.
`newId` stands for the `SERIAL` id the insert generates, `now` for the
insertion clock. -/
def createTask (db : DB) (d : CreateTaskData) (newId : Int) (now : Nat) :
    Except String (Task × DB) :=
  let assigned := jsOrNullInt d.assigned_to
  let fkOk : Bool :=
    match assigned with
    | some n => db.users.any (fun u => u.id == n)
    | none => true
  if fkOk then
    let t : Task :=
      { id := newId, title := d.title, description := jsOrNullStr d.description,
        status := d.status.getD .todo, priority := d.priority.getD .medium,
        due_date := jsOrNullStr d.due_date, assigned_to := assigned,
        created_at := now, updated_at := now }
    .ok (t, { db with tasks := db.tasks ++ [t] })
  else .error "Referenced user does not exist"

/-- The body of a `PUT /api/tasks/:id` request as typed by `UpdateTaskData`.
A field set to `none` was not supplied (`undefined`); for `assigned_to`,
`some none` models an explicit JSON `null` (the validation middleware
accepts `null` and `!== undefined` forwards it to the UPDATE). -/
structure UpdateTaskData where
  title : Option String := none
  description : Option String := none
  status : Option Status := none
  priority : Option Priority := none
  due_date : Option String := none
  assigned_to : Option (Option Int) := none
deriving DecidableEq, Repr

/-- The `SET` list of `TaskService.updateTask` applied to one row: exactly
the supplied fields change; `created_at` and `updated_at` are not in the
`SET` list and keep their stored values. -/
def applyUpdateData (d : UpdateTaskData) (t : Task) : Task :=
  { t with
    title := d.title.getD t.title,
    description := match d.description with | some s => some s | none => t.description,
    status := d.status.getD t.status,
    priority := d.priority.getD t.priority,
    due_date := match d.due_date with | some s => some s | none => t.due_date,
    assigned_to := match d.assigned_to with | some a => a | none => t.assigned_to }

/-- Outcome of `TaskService.updateTask`: `null` for a missing task, the
thrown `"No fields to update"` error, the database's foreign-key rejection
(23503 → "Referenced user does not exist"), or the updated row together
with the new database state. -/
inductive UpdateOutcome where
  | notFound
  | noFields
  | fkError
  | ok (t : Task) (db : DB)
deriving DecidableEq, Repr

/-- `TaskService.updateTask`: look the task up (`getTaskById`), reject an
empty field list, then issue `UPDATE tasks SET <supplied fields> WHERE id`.
No status-transition check of any kind is performed, and the `SET` list
contains only the supplied fields. -/
def updateTask (db : DB) (id : Int) (d : UpdateTaskData) : UpdateOutcome :=
  match db.tasks.find? (fun t => t.id == id) with
  | none => .notFound
  | some old =>
      if d.title = none ∧ d.description = none ∧ d.status = none ∧
          d.priority = none ∧ d.due_date = none ∧ d.assigned_to = none then
        .noFields
      else
        match d.assigned_to with
        | some (some n) =>
            if db.users.any (fun u => u.id == n) then
              .ok (applyUpdateData d old)
                { db with tasks := db.tasks.map (fun t => if t.id == id then applyUpdateData d t else t) }
            else .fkError
        | _ =>
            .ok (applyUpdateData d old)
              { db with tasks := db.tasks.map (fun t => if t.id == id then applyUpdateData d t else t) }

/-- `UserService.getUserByUsername`: `SELECT * FROM users WHERE username = $1`
(exact varchar equality), first row or null. -/
def getUserByUsername (db : DB) (username : String) : Option User :=
  db.users.find? (fun u => u.username == username)

/-- `UserService.getUserByEmail`: `SELECT * FROM users WHERE email = $1`.
The comparison is plain varchar equality — exact, case-sensitive. -/
def getUserByEmail (db : DB) (email : String) : Option User :=
  db.users.find? (fun u => u.email == email)

/-- The body of a `POST /api/users` request (`CreateUserData`). -/
structure CreateUserData where
  username : String
  email : String
  full_name : String
deriving DecidableEq, Repr

/-- Outcome of `UserService.createUser`: the two pre-check errors thrown
before any insert reaches storage, or the inserted row and new state. -/
inductive UserCreateResult where
  | usernameExists
  | emailExists
  | ok (u : User) (db : DB)
deriving DecidableEq, Repr

/-- `UserService.createUser` (part_014, first variant): check
`getUserByUsername`, then `getUserByEmail` — each hit throws its
"... already exists" error before the insert — then
`INSERT INTO users ... RETURNING *`. `newId` stands for the generated
`SERIAL` id, `now` for `DEFAULT CURRENT_TIMESTAMP`. -/
def createUser (db : DB) (d : CreateUserData) (newId : Int) (now : Nat) :
    UserCreateResult :=
  match getUserByUsername db d.username with
  | some _ => .usernameExists
  | none =>
      match getUserByEmail db d.email with
      | some _ => .emailExists
      | none =>
          let u : User :=
            { id := newId, username := d.username, email := d.email,
              full_name := d.full_name, created_at := now, updated_at := now }
          .ok u { db with users := db.users ++ [u] }

/-- The body of a `PUT /api/users/:id` request (`UpdateUserData`); `none`
means the field was not supplied. -/
structure UpdateUserData where
  username : Option String := none
  email : Option String := none
  full_name : Option String := none
deriving DecidableEq, Repr

/-- The username conflict pre-check of `UserService.updateUser`:
`if (userData.username && userData.username !== existingUser.username)`
followed by `getUserByUsername`. -/
def usernameConflict (db : DB) (existing : User) (d : UpdateUserData) : Bool :=
  match d.username with
  | none => false
  | some s => s != "" && s != existing.username && (getUserByUsername db s).isSome

/-- The email conflict pre-check of `UserService.updateUser`:
`if (userData.email && userData.email !== existingUser.email)` followed by
`getUserByEmail` — exact string comparisons on both tests. -/
def emailConflict (db : DB) (existing : User) (d : UpdateUserData) : Bool :=
  match d.email with
  | none => false
  | some s => s != "" && s != existing.email && (getUserByEmail db s).isSome

/-- The `SET` list of `UserService.updateUser` applied to one row: only the
supplied fields change (`updated_at` is not in the `SET` list). -/
def applyUserUpdate (d : UpdateUserData) (u : User) : User :=
  { u with
    username := d.username.getD u.username,
    email := d.email.getD u.email,
    full_name := d.full_name.getD u.full_name }

/-- Outcome of `UserService.updateUser`. -/
inductive UserUpdateResult where
  | notFound
  | usernameExists
  | emailExists
  | noFields
  | ok (u : User) (db : DB)
deriving DecidableEq, Repr

/-- `UserService.updateUser` (part_014, first variant): existence check,
username conflict pre-check, email conflict pre-check, empty-field-list
check, then `UPDATE users SET <supplied fields> WHERE id = $n RETURNING *`. -/
def updateUser (db : DB) (id : Int) (d : UpdateUserData) : UserUpdateResult :=
  match db.users.find? (fun u => u.id == id) with
  | none => .notFound
  | some existing =>
      if usernameConflict db existing d then .usernameExists
      else if emailConflict db existing d then .emailExists
      else if d.username = none ∧ d.email = none ∧ d.full_name = none then .noFields
      else
        .ok (applyUserUpdate d existing)
          { db with users := db.users.map (fun u => if u.id == id then applyUserUpdate d u else u) }

/-- Set `assigned_to` to NULL on every task of the deleted user:
`UPDATE tasks SET assigned_to = NULL WHERE assigned_to = $1`. -/
def nullifyTasks (db : DB) (id : Int) : DB :=
  { db with
    tasks := db.tasks.map (fun t =>
      if t.assigned_to == some id then { t with assigned_to := none } else t) }

/-- Outcome of one run of `UserService.deleteUser`. The source issues its
statements through `pool.query` with no `BEGIN`/`COMMIT`, so each statement
auto-commits on its own; `failed` records the state left visible when the
final `DELETE FROM users` statement throws after the earlier statements
have already committed. -/
inductive DeleteUserRun where
  | notFound
  | deleted (db : DB)
  | failed (observable : DB)
deriving DecidableEq, Repr

/-- `UserService.deleteUser` (part_014, first variant): existence check,
`SELECT COUNT(*) FROM tasks WHERE assigned_to = $1`, cascade nullification
if the count is positive, then `DELETE FROM users WHERE id = $1` — four
separate auto-committed statements, no enclosing transaction.
`deleteFails` injects a storage failure into the final `DELETE` statement;
a run with `deleteFails = false` is the normal successful path. -/
def deleteUser (db : DB) (id : Int) (deleteFails : Bool) : DeleteUserRun :=
  match db.users.find? (fun u => u.id == id) with
  | none => .notFound
  | some _ =>
      let taskCount := (db.tasks.filter (fun t => t.assigned_to == some id)).length
      let db1 := if taskCount > 0 then nullifyTasks db id else db
      if deleteFails then .failed db1
      else .deleted { db1 with users := db1.users.filter (fun u => u.id != id) }

/-- An `updateTask` call returned a row (HTTP 200 path). -/
def updateSucceeded : UpdateOutcome → Bool
  | .ok _ _ => true
  | _ => false

/-- The status of the row returned by `updateTask`, when it returned one. -/
def updatedStatus : UpdateOutcome → Option Status
  | .ok t _ => some t.status
  | _ => none

/-- The `updated_at` of the row returned by `updateTask`, when there is one. -/
def updatedAt : UpdateOutcome → Option Nat
  | .ok t _ => some t.updated_at
  | _ => none

/-- A `createUser` call inserted a row (HTTP 201 path). -/
def userCreateSucceeded : UserCreateResult → Bool
  | .ok _ _ => true
  | _ => false

/-- The `assigned_to` column of the task with the given id, if the task
exists (`some none` = the task exists, unassigned). -/
def taskAssignee (db : DB) (tid : Int) : Option (Option Int) :=
  (db.tasks.find? (fun t => t.id == tid)).map (fun t => t.assigned_to)

/- Concrete sample rows and states used by the witnesses and
counterexamples below. -/

/-- Sample task row, status `todo`. -/
def taskT0 : Task :=
  { id := 1, title := "t", description := none, status := .todo,
    priority := .medium, due_date := none, assigned_to := none,
    created_at := 3, updated_at := 3 }

/-- Sample state holding only `taskT0`. -/
def dbT0 : DB := { users := [], tasks := [taskT0] }

/-- Empty state. -/
def dbEmpty : DB := { users := [], tasks := [] }

/-!
### C1 — status transition state machine

The claim: a status update succeeds only for one-step forward transitions
and a skipped/backward/same transition is rejected with a conflict error,
with a close timestamp stamped on entering the terminal state.
`TaskService.updateTask` performs no transition check at all: the status
field goes through the same partial-update path as every other field, and
the schema has no close-timestamp column.
-/

/-- C1 counterexample: the skip transition `todo → done`, which the claim
says is rejected with a conflict error, succeeds — the row comes back with
status `done` and no error of any kind is raised. -/
theorem updateTask_skip_transition_accepted :
    updateSucceeded (updateTask dbT0 1 { status := some Status.done }) = true ∧
      updatedStatus (updateTask dbT0 1 { status := some Status.done }) =
        some Status.done := by decide

/-- C1 (amended): status updates are free-form. For every stored task and
every enumerated target status — including skips, backward moves and
same-state writes — `updateTask` succeeds, returning the row with exactly
the status replaced; no illegal-transition error exists in the code and no
close timestamp is stamped (the row has no such field: the returned record
differs from the old one only in `status`). -/
theorem updateTask_status_freeform (db : DB) (id : Int) (s : Status) (old : Task)
    (h : db.tasks.find? (fun t => t.id == id) = some old) :
    updateTask db id { status := some s } =
      .ok { old with status := s }
        { db with tasks := db.tasks.map fun t => if t.id == id then { t with status := s } else t } := by
  unfold updateTask
  simp only [h]
  simp [applyUpdateData]

/-- C1 witness: `updateTask_status_freeform` applied to the stored `todo`
task and the backward/skip target `done`. -/
theorem updateTask_status_freeform_witness :
    updateTask dbT0 1 { status := some Status.done } =
      .ok { taskT0 with status := Status.done }
        { dbT0 with tasks := dbT0.tasks.map fun t => if t.id == 1 then { t with status := Status.done } else t } :=
  updateTask_status_freeform dbT0 1 Status.done taskT0 (by decide)

/-!
### C7 — update timestamp

The claim: every successful update changes the stored `updated_at`.
The `UPDATE` statement built by `TaskService.updateTask` sets only the
supplied fields; `updated_at` is never in the `SET` list and the schema
declares no trigger, so the stored value never changes after insert.
-/

/-- C7 counterexample: a successful title update returns the row with
`updated_at` still equal to its pre-update value `3 = taskT0.updated_at`,
while the claim requires the value to differ. -/
theorem updated_at_unchanged_on_update :
    updateSucceeded (updateTask dbT0 1 { title := some "new title" }) = true ∧
      updatedAt (updateTask dbT0 1 { title := some "new title" }) =
        some taskT0.updated_at := by decide

/-- C7 (amended): on every successful task update the stored `created_at`
AND `updated_at` are both exactly what they were before the update —
`created_at` is immutable, and `updated_at` never changes either (it keeps
its insert-time default forever). -/
theorem updateTask_preserves_timestamps (db : DB) (id : Int) (d : UpdateTaskData)
    (old t : Task) (db' : DB)
    (hfind : db.tasks.find? (fun x => x.id == id) = some old)
    (h : updateTask db id d = .ok t db') :
    t.created_at = old.created_at ∧ t.updated_at = old.updated_at := by
  unfold updateTask at h
  simp only [hfind] at h
  split at h
  · exact UpdateOutcome.noConfusion h
  · split at h
    · split at h
      · injection h with h1 h2
        rw [← h1]
        exact ⟨rfl, rfl⟩
      · exact UpdateOutcome.noConfusion h
    · injection h with h1 h2
      rw [← h1]
      exact ⟨rfl, rfl⟩

/-- C7 witness: the title update on the stored sample task keeps both
timestamps at their stored values. -/
theorem updateTask_preserves_timestamps_witness :
    ({ taskT0 with title := "new title" } : Task).created_at = taskT0.created_at ∧
      ({ taskT0 with title := "new title" } : Task).updated_at = taskT0.updated_at :=
  updateTask_preserves_timestamps dbT0 1 { title := some "new title" }
    taskT0 { taskT0 with title := "new title" }
    { dbT0 with tasks := dbT0.tasks.map fun t => if t.id == 1 then { t with title := "new title" } else t }
    (by decide) (by decide)

/-!
### C10 — creation defaults
-/

/-- C10: in `TaskService.createTask`, an unsupplied status defaults to
`todo` and an unsupplied priority to `medium` (destructuring defaults), and
an omitted description, due date or assignee is stored as NULL
(`x || null`). -/
theorem createTask_defaults (db : DB) (d : CreateTaskData) (newId : Int) (now : Nat)
    (t : Task) (db' : DB) (h : createTask db d newId now = .ok (t, db')) :
    (d.status = none → t.status = .todo) ∧
      (d.priority = none → t.priority = .medium) ∧
      (d.description = none → t.description = none) ∧
      (d.due_date = none → t.due_date = none) ∧
      (d.assigned_to = none → t.assigned_to = none) := by
  simp only [createTask] at h
  split at h
  · simp only [Except.ok.injEq, Prod.mk.injEq] at h
    obtain ⟨rfl, rfl⟩ := h
    exact ⟨fun hs => by simp [hs], fun hp => by simp [hp],
      fun hd => by simp [jsOrNullStr, hd], fun hdd => by simp [jsOrNullStr, hdd],
      fun ha => by simp [jsOrNullInt, ha]⟩
  · exact Except.noConfusion h

/-- The row `createTask dbEmpty { title := "x" } 1 0` inserts. -/
def createdT0 : Task :=
  { id := 1, title := "x", description := none, status := .todo,
    priority := .medium, due_date := none, assigned_to := none,
    created_at := 0, updated_at := 0 }

/-- C10 witness: creating a task supplying only the title yields status
`todo`, priority `medium`, and NULL description, due date and assignee. -/
theorem createTask_defaults_witness :
    createdT0.status = Status.todo ∧ createdT0.priority = Priority.medium ∧
      createdT0.description = none ∧ createdT0.due_date = none ∧
      createdT0.assigned_to = none := by
  have h := createTask_defaults dbEmpty { title := "x" } 1 0 createdT0
    { users := [], tasks := [createdT0] } (by rfl)
  exact ⟨h.1 rfl, h.2.1 rfl, h.2.2.1 rfl, h.2.2.2.1 rfl, h.2.2.2.2 rfl⟩

/-!
### C2, C3 — user deletion cascade and its (missing) atomicity
-/

/-- Sample user row. -/
def userU1 : User :=
  { id := 1, username := "u1", email := "a@b.com", full_name := "A",
    created_at := 0, updated_at := 0 }

/-- Sample task row assigned to `userU1`. -/
def taskX : Task :=
  { id := 10, title := "x", description := none, status := .todo,
    priority := .medium, due_date := none, assigned_to := some 1,
    created_at := 0, updated_at := 0 }

/-- Sample state: one user, one task assigned to that user. -/
def dbUX : DB := { users := [userU1], tasks := [taskX] }

/-- The state `deleteUser dbUX 1 false` leaves behind. -/
def dbUXdeleted : DB :=
  { users := [], tasks := [{ taskX with assigned_to := none }] }

/-- C2: after a successful `deleteUser`, every task that existed before
still exists (same id, same count of rows); a task that referenced the
deleted user now has a NULL assignee, every other task is untouched; and
no user row with the deleted id remains. -/
theorem deleteUser_cascade_nullifies (db : DB) (id : Int) (db' : DB)
    (h : deleteUser db id false = .deleted db') :
    (∀ t ∈ db.tasks, ∃ t' ∈ db'.tasks, t'.id = t.id ∧
        (t.assigned_to = some id → t'.assigned_to = none) ∧
        (t.assigned_to ≠ some id → t' = t)) ∧
      (∀ u ∈ db'.users, u.id ≠ id) ∧
      db'.tasks.length = db.tasks.length := by
  unfold deleteUser at h
  cases hf : db.users.find? (fun u => u.id == id) with
  | none => rw [hf] at h; exact DeleteUserRun.noConfusion h
  | some u =>
      simp only [hf] at h
      injection h with h1
      subst h1
      by_cases hc : (db.tasks.filter (fun t => t.assigned_to == some id)).length > 0
      · rw [if_pos hc]
        refine ⟨fun t ht => ?_, fun v hv => ?_, by simp [nullifyTasks]⟩
        · refine ⟨if t.assigned_to == some id then { t with assigned_to := none } else t,
            List.mem_map_of_mem _ ht, ?_, ?_, ?_⟩
          · by_cases hta : t.assigned_to = some id <;> simp [hta]
          · intro hta; simp [hta]
          · intro hta; simp [hta]
        · have hv' : v ∈ (nullifyTasks db id).users.filter (fun w => w.id != id) := hv
          have := (List.mem_filter.mp hv').2
          simpa using this
      · rw [if_neg hc]
        have hnone : ∀ t ∈ db.tasks, ¬ t.assigned_to = some id := by
          intro t ht hta
          have : t ∈ db.tasks.filter (fun t => t.assigned_to == some id) :=
            List.mem_filter.mpr ⟨ht, by simp [hta]⟩
          exact hc (List.length_pos.mpr (List.ne_nil_of_mem this))
        refine ⟨fun t ht => ⟨t, ht, rfl, fun hta => absurd hta (hnone t ht), fun _ => rfl⟩,
          fun v hv => ?_, rfl⟩
        have hv' : v ∈ db.users.filter (fun w => w.id != id) := hv
        have := (List.mem_filter.mp hv').2
        simpa using this

/-- C2 witness: deleting user 1 from the one-user-one-task state keeps the
task with a NULL assignee and removes the user row. -/
theorem deleteUser_cascade_nullifies_witness :
    (∀ t ∈ dbUX.tasks, ∃ t' ∈ dbUXdeleted.tasks, t'.id = t.id ∧
        (t.assigned_to = some 1 → t'.assigned_to = none) ∧
        (t.assigned_to ≠ some 1 → t' = t)) ∧
      (∀ u ∈ dbUXdeleted.users, u.id ≠ 1) ∧
      dbUXdeleted.tasks.length = dbUX.tasks.length :=
  deleteUser_cascade_nullifies dbUX 1 dbUXdeleted (by decide)

/-- C3 counterexample: `deleteUser` runs its statements without a
transaction; when the final `DELETE FROM users` fails, the already
committed cascade nullification stays visible — task 10's assignee went
from `some 1` to `none` although the operation as a whole failed, which
the claim says must be unobservable. -/
theorem deleteUser_partial_failure_observable :
    deleteUser dbUX 1 true = .failed { dbUX with tasks := [{ taskX with assigned_to := none }] } ∧
      taskAssignee { dbUX with tasks := [{ taskX with assigned_to := none }] } 10 ≠
        taskAssignee dbUX 10 := by decide

/-- C3 (amended): `UserService.deleteUser` is not transactional — its
statements auto-commit one by one. If the final user-row `DELETE` fails
after the cascade step ran (the user exists and had at least one assigned
task), the observable state is exactly the nullified state: the user rows
are all still present, and the previously assigned task is visible with a
NULL assignee. -/
theorem deleteUser_no_transaction (db : DB) (id : Int) (u : User) (t0 : Task)
    (hu : db.users.find? (fun v => v.id == id) = some u)
    (ht : t0 ∈ db.tasks) (ha : t0.assigned_to = some id) :
    deleteUser db id true = .failed (nullifyTasks db id) ∧
      (nullifyTasks db id).users = db.users ∧
      ∃ t' ∈ (nullifyTasks db id).tasks, t'.id = t0.id ∧ t'.assigned_to = none := by
  have hmem : t0 ∈ db.tasks.filter (fun t => t.assigned_to == some id) :=
    List.mem_filter.mpr ⟨ht, by simp [ha]⟩
  have hpos : (db.tasks.filter (fun t => t.assigned_to == some id)).length > 0 :=
    List.length_pos.mpr (List.ne_nil_of_mem hmem)
  refine ⟨?_, rfl, ?_⟩
  · unfold deleteUser
    simp only [hu, if_pos hpos]
    rfl
  · refine ⟨{ t0 with assigned_to := none }, ?_, rfl, rfl⟩
    have : (fun t => if t.assigned_to == some id then { t with assigned_to := none } else t) t0 =
        { t0 with assigned_to := none } := by simp [ha]
    exact this ▸ List.mem_map_of_mem _ ht

/-- C3 witness: the non-atomic failure path on the one-user-one-task
state. -/
theorem deleteUser_no_transaction_witness :
    deleteUser dbUX 1 true = .failed (nullifyTasks dbUX 1) ∧
      (nullifyTasks dbUX 1).users = dbUX.users ∧
      ∃ t' ∈ (nullifyTasks dbUX 1).tasks, t'.id = taskX.id ∧ t'.assigned_to = none :=
  deleteUser_no_transaction dbUX 1 userU1 taskX (by decide) (by decide) (by decide)

/-!
### C9 — email uniqueness

`getUserByEmail` compares emails with `WHERE email = $1` — exact varchar
equality — and the update pre-check compares with `!==`. Nothing in the
code (nor in the schema's `UNIQUE` constraint on a plain `VARCHAR` column)
lowercases or case-folds, so uniqueness is case-SENSITIVE, not
case-insensitive as claimed.
-/

/-- Second sample user row. -/
def userU2 : User :=
  { id := 2, username := "u2", email := "c@d.com", full_name := "B",
    created_at := 0, updated_at := 0 }

/-- Sample state with two users (`a@b.com` and `c@d.com`). -/
def dbUsers : DB := { users := [userU1, userU2], tasks := [] }

/-- C9 counterexample: with `a@b.com` already taken, creating a user whose
email is `A@B.com` — equal under case-insensitive comparison, so the claim
requires a conflict error — succeeds and inserts the row. -/
theorem email_uniqueness_not_case_insensitive :
    userCreateSucceeded
      (createUser dbUsers { username := "u3", email := "A@B.com", full_name := "C" } 3 0) =
      true := by decide

/-- C9 (amended): email uniqueness is enforced by the engine with a
distinguishable conflict error before reaching storage, comparing addresses
EXACTLY (case-sensitively): creating a second user with a byte-identical
email fails with the email conflict; updating a user to a different user's
exact email fails with the email conflict; updating a user to its own
unchanged email succeeds. Emails differing only in letter case are not
detected (see the counterexample). -/
theorem email_uniqueness_exact (db : DB) (d : CreateUserData) (newId : Int)
    (now : Nat) (i1 : Int) (ex1 other1 : User) (e : String) (i2 : Int) (ex2 : User) :
    (getUserByUsername db d.username = none → (∃ o, getUserByEmail db d.email = some o) →
      createUser db d newId now = .emailExists) ∧
      (db.users.find? (fun v => v.id == i1) = some ex1 → e ≠ "" → e ≠ ex1.email →
        getUserByEmail db e = some other1 →
        updateUser db i1 { email := some e } = .emailExists) ∧
      (db.users.find? (fun v => v.id == i2) = some ex2 →
        updateUser db i2 { email := some ex2.email } =
          .ok ex2 { db with users := db.users.map fun v => if v.id == i2 then applyUserUpdate { email := some ex2.email } v else v }) := by
  refine ⟨fun hU hE => ?_, fun hfind hne hown hE => ?_, fun hfind => ?_⟩
  · obtain ⟨o, hE⟩ := hE
    unfold createUser
    simp only [hU, hE]
  · unfold updateUser
    simp only [hfind]
    have h1 : usernameConflict db ex1 { email := some e } = false := by
      simp [usernameConflict]
    have h2 : emailConflict db ex1 { email := some e } = true := by
      simp [emailConflict, hE, hne, hown]
    simp [h1, h2]
  · unfold updateUser
    simp only [hfind]
    have h1 : usernameConflict db ex2 { email := some ex2.email } = false := by
      simp [usernameConflict]
    have h2 : emailConflict db ex2 { email := some ex2.email } = false := by
      simp [emailConflict]
    simp [h1, h2, applyUserUpdate]

/-- C9 witness: on the two-user state, an exact-duplicate create fails, an
update stealing another user's exact email fails, and an update to one's
own unchanged email succeeds. -/
theorem email_uniqueness_exact_witness :
    createUser dbUsers { username := "u9", email := "a@b.com", full_name := "Z" } 9 0 =
        .emailExists ∧
      updateUser dbUsers 2 { email := some "a@b.com" } = .emailExists ∧
      updateUser dbUsers 1 { email := some "a@b.com" } =
        .ok userU1 { dbUsers with users := dbUsers.users.map fun v => if v.id == 1 then applyUserUpdate { email := some "a@b.com" } v else v } := by
  have h := email_uniqueness_exact dbUsers
    { username := "u9", email := "a@b.com", full_name := "Z" } 9 0
    2 userU2 userU1 "a@b.com" 1 userU1
  exact ⟨h.1 (by decide) ⟨userU1, by decide⟩,
    h.2.1 (by decide) (by decide) (by decide) (by decide),
    h.2.2 (by decide)⟩

/-!
### C8 — empty search string

`buildWhereClause` guards the search clause with `if (filters.search)`;
the empty string is falsy in JavaScript, so an empty search contributes no
clause — exactly as when the parameter is absent.
-/

/-- A non-truthy search value contributes no clause: the WHERE predicate
coincides with the one for an absent search parameter. -/
theorem matchesWhere_search_none (f : TaskQueryParams) (t : Task)
    (hs : strTruthy f.search = false) :
    matchesWhere f t = matchesWhere { f with search := none } t := by
  unfold matchesWhere
  rw [hs]
  rfl

/-- A non-truthy search value leaves the whole list operation unchanged. -/
theorem getAllTasks_search_irrelevant (db : DB) (f : TaskQueryParams)
    (hs : strTruthy f.search = false) :
    getAllTasks db f = getAllTasks db { f with search := none } := by
  unfold getAllTasks
  rw [List.filter_congr (fun t _ => matchesWhere_search_none f t hs)]

/-- C8: for any fixed combination of the other filters, the list operation
with `search = ""` returns exactly the same rows and the same total as the
list operation with no search filter at all. -/
theorem empty_search_equals_no_search (db : DB) (f : TaskQueryParams) :
    getAllTasks db { f with search := some "" } =
      getAllTasks db { f with search := none } :=
  getAllTasks_search_irrelevant db { f with search := some "" } rfl

/-!
### C4 — facet counts

The spec's list-operation contract includes a `facets` component whose
status counts use the main query's filter scope minus any status filter.
The implemented response (`TaskController.getAllTasks`) consists of `tasks`
and `pagination` only: no facet query exists anywhere in
`TaskService.getAllTasks`, whose two queries share one WHERE clause.
-/

/-- Modelled from the spec ("compute counts grouped by D using the same
filter scope as the main query except that any filter on D itself is
removed"): the facet count the response would have to contain for one
status value. The code has no corresponding computation; this definition
exists only to compare the spec's contract against the code's response. -/
def specStatusFacet (db : DB) (f : TaskQueryParams) (s : Status) : Nat :=
  (db.tasks.filter (fun t => matchesWhere { f with status := none } t && (t.status == s))).length

/-- Sample `todo` task visible to the `status=todo` query. -/
def taskTodoA : Task :=
  { id := 1, title := "a", description := none, status := .todo,
    priority := .medium, due_date := none, assigned_to := none,
    created_at := 1, updated_at := 1 }

/-- Sample `done` task, outside the `status=todo` scope but inside the
facet scope. -/
def taskDoneB : Task :=
  { id := 2, title := "b", description := none, status := .done,
    priority := .medium, due_date := none, assigned_to := none,
    created_at := 2, updated_at := 2 }

/-- State with the `todo` task only. -/
def dbFacetSmall : DB := { users := [], tasks := [taskTodoA] }

/-- State with the `todo` task and the `done` task. -/
def dbFacetBig : DB := { users := [], tasks := [taskTodoA, taskDoneB] }

/-- The raw query `GET /api/tasks?status=todo`. -/
def qStatusTodo : RawListQuery := { status := some "todo" }

/-- The compiled parameters of `qStatusTodo`. -/
def pStatusTodo : TaskQueryParams := { status := some "todo" }

/-- C4 counterexample: two states whose spec-mandated facet counts differ
(`done ↦ 1` vs `done ↦ 0` under the `status=todo` query) produce the very
same response — so the response cannot contain the facet counts the claim
says it includes. -/
theorem list_response_lacks_facets :
    controllerGetAllTasks dbFacetBig qStatusTodo = controllerGetAllTasks dbFacetSmall qStatusTodo ∧
      specStatusFacet dbFacetBig pStatusTodo Status.done ≠
        specStatusFacet dbFacetSmall pStatusTodo Status.done :=
  ⟨rfl, by decide⟩

/-- A row failing the status clause fails the whole WHERE conjunction. -/
theorem matchesWhere_status_mismatch (f : TaskQueryParams) (t : Task)
    (hf : strTruthy f.status = true) (h : statusStr t.status ≠ f.status.getD "") :
    matchesWhere f t = false := by
  have hb : (statusStr t.status == f.status.getD "") = false := beq_eq_false_iff_ne.mpr h
  simp [matchesWhere, hf, hb]

/-- Appending a row the WHERE clause rejects leaves `getAllTasks`
unchanged: same rows, same total. -/
theorem getAllTasks_append_nonmatching (db : DB) (t : Task) (f : TaskQueryParams)
    (hm : matchesWhere f t = false) :
    getAllTasks { db with tasks := db.tasks ++ [t] } f = getAllTasks db f := by
  unfold getAllTasks
  simp [List.filter_append, hm]

/-- C4 (amended): the list operation's output consists of the rows and the
pagination metadata only; no facet counts are computed or returned. In
particular the whole response is insensitive to rows outside the status
filter's scope, which the spec's facet counts would have to reflect:
appending any task of a different status leaves the response unchanged. -/
theorem list_response_no_facets (db : DB) (t : Task) (q : RawListQuery)
    (hs : q.status = some "todo") (ht : statusStr t.status ≠ "todo") :
    controllerGetAllTasks { db with tasks := db.tasks ++ [t] } q =
      controllerGetAllTasks db q := by
  simp only [controllerGetAllTasks]
  cases hva : validateAssignedTo q.assignedTo with
  | error e => rfl
  | ok a =>
      dsimp only
      split_ifs
      · rfl
      · rfl
      · have hm : matchesWhere
            { status := q.status, priority := q.priority, assignedTo := a,
              search := q.search, sortBy := q.sortBy, sortOrder := q.sortOrder,
              limit := q.limit, offset := q.offset } t = false := by
          apply matchesWhere_status_mismatch
          · rw [hs]; rfl
          · rw [hs]; exact ht
        rw [getAllTasks_append_nonmatching db t _ hm]

/-- C4 witness: adding the `done` task to the small state leaves the
`status=todo` response unchanged. -/
theorem list_response_no_facets_witness :
    controllerGetAllTasks { dbFacetSmall with tasks := dbFacetSmall.tasks ++ [taskDoneB] } qStatusTodo =
      controllerGetAllTasks dbFacetSmall qStatusTodo :=
  list_response_no_facets dbFacetSmall taskDoneB qStatusTodo rfl (by decide)

/-!
### C5 — degradation on unrecognized filter values

The claim says every unrecognized/malformed filter value is silently
ignored (contributing no clause) and the operation never fails. In the
code, an unknown status value is NOT ignored — it is bound into the
`t.status = $n` clause and simply matches nothing — and a non-numeric
`assignedTo` is rejected by the controller with a 400 response.
-/

/-- C5 counterexample: a non-numeric `assignedTo` makes the list operation
fail with a 400 validation response instead of being silently ignored. -/
theorem malformed_assignee_rejected :
    controllerGetAllTasks dbT0 { assignedTo := some "abc" } =
      .error (.badRequest "Invalid assignedTo parameter") := rfl

/-- C5 (amended): the two malformed-filter behaviors the code actually
has. (a) A status value outside the enumerated set does not fail and does
not reject, but it is not ignored either: it is bound into an equality
clause that matches no row, so the operation returns an empty result set
with total 0. (b) A non-numeric assignee other than the `"unassigned"`
sentinel is rejected with a 400 `Invalid assignedTo parameter` response —
the operation does fail. -/
theorem filters_degrade_not_uniformly (db : DB) (s a : String)
    (hs0 : s ≠ "") (hs1 : s ≠ "todo") (hs2 : s ≠ "in-progress") (hs3 : s ≠ "done")
    (ha0 : a ≠ "unassigned") (ha1 : parseIntJS a = none) :
    controllerGetAllTasks db { status := some s } =
        .ok { tasks := [], pagination :=
          { total := 0, count := 0, limit := none, offset := 0, hasMore := false } } ∧
      controllerGetAllTasks db { assignedTo := some a } =
        .error (.badRequest "Invalid assignedTo parameter") := by
  constructor
  · have hfil : db.tasks.filter (matchesWhere { status := some s }) = [] := by
      rw [List.filter_eq_nil_iff]
      intro t ht
      have hne : statusStr t.status ≠ s := by
        cases t.status with
        | todo => exact fun hh => hs1 hh.symm
        | inProgress => exact fun hh => hs2 hh.symm
        | done => exact fun hh => hs3 hh.symm
      have hm := matchesWhere_status_mismatch { status := some s } t
        (by simpa [strTruthy] using hs0) (by simpa using hne)
      simp [hm]
    have hred : controllerGetAllTasks db { status := some s } =
        .ok { tasks := applyPagination none none
                (sortTasks none none (db.tasks.filter (matchesWhere { status := some s }))),
              pagination :=
                { total := (db.tasks.filter (matchesWhere { status := some s })).length,
                  count := (applyPagination none none
                    (sortTasks none none (db.tasks.filter (matchesWhere { status := some s })))).length,
                  limit := none, offset := 0,
                  hasMore := computeHasMore none none
                    (applyPagination none none
                      (sortTasks none none (db.tasks.filter (matchesWhere { status := some s })))).length
                    (db.tasks.filter (matchesWhere { status := some s })).length } } := rfl
    rw [hred, hfil]
    rfl
  · unfold controllerGetAllTasks validateAssignedTo
    dsimp only
    rw [if_neg ha0, ha1]

/-- C5 witness: `status=bogus` yields an empty result set (not an error);
`assignedTo=abc` yields the 400 response. -/
theorem filters_degrade_not_uniformly_witness :
    controllerGetAllTasks dbT0 { status := some "bogus" } =
        .ok { tasks := [], pagination :=
          { total := 0, count := 0, limit := none, offset := 0, hasMore := false } } ∧
      controllerGetAllTasks dbT0 { assignedTo := some "abc" } =
        .error (.badRequest "Invalid assignedTo parameter") :=
  filters_degrade_not_uniformly dbT0 "bogus" "abc" (by decide) (by decide)
    (by decide) (by decide) (by decide) (by decide)

/-!
### C6 — page-size handling

The claim says the effective page size is the requested limit clamped into
`[1, 100]`, with a default when absent, and that an out-of-range limit
never causes an error. The controller instead REJECTS a supplied limit
outside `[1, 100]` with a 400 response, and applies no default at all when
the limit is absent: no `LIMIT` clause is emitted and every matching row
is returned. (`buildPaginationClause`'s `Math.min(limit, 100)` cap is
unreachable for out-of-range input behind the controller's validation.)
-/

/-- C6 counterexample: `limit=101` is not clamped to 100 — the operation
fails with a 400 validation response, which the claim says can never
happen. -/
theorem out_of_range_limit_rejected :
    controllerGetAllTasks dbT0 { limit := some 101 } =
      .error (.badRequest "Invalid limit parameter") := rfl

/-- The WHERE predicate with no filters accepts every row. -/
theorem matchesWhere_default (t : Task) : matchesWhere {} t = true := rfl

/-- C6 (amended): (a) a supplied limit outside `[1, 100]` is rejected with
a 400 response (no clamping); (b) with no limit supplied there is no
default page size — the response carries every matching row, `limit` is
absent and `hasMore` is `false`; (c) the service-level pagination clause,
reached only with a positive limit, caps it at 100. -/
theorem limit_clamp_behavior (db : DB) (l : Int) :
    ((l < 1 ∨ l > 100) → controllerGetAllTasks db { limit := some l } =
        .error (.badRequest "Invalid limit parameter")) ∧
      (controllerGetAllTasks db {} =
        .ok { tasks := sortTasks none none db.tasks,
              pagination :=
                { total := db.tasks.length,
                  count := (sortTasks none none db.tasks).length,
                  limit := none, offset := 0, hasMore := false } }) ∧
      (0 < l → effLimit (some l) = some (min l.toNat 100)) := by
  refine ⟨fun hl => ?_, ?_, fun hl => ?_⟩
  · unfold controllerGetAllTasks validateAssignedTo
    dsimp only
    rw [if_pos ⟨by simp, by simpa using hl⟩]
  · have hfil : db.tasks.filter (matchesWhere {}) = db.tasks :=
      List.filter_eq_self.mpr (fun t _ => matchesWhere_default t)
    have hred : controllerGetAllTasks db {} =
        .ok { tasks := applyPagination none none
                (sortTasks none none (db.tasks.filter (matchesWhere {}))),
              pagination :=
                { total := (db.tasks.filter (matchesWhere {})).length,
                  count := (applyPagination none none
                    (sortTasks none none (db.tasks.filter (matchesWhere {})))).length,
                  limit := none, offset := 0,
                  hasMore := computeHasMore none none
                    (applyPagination none none
                      (sortTasks none none (db.tasks.filter (matchesWhere {})))).length
                    (db.tasks.filter (matchesWhere {})).length } } := rfl
    rw [hred, hfil]
    rfl
  · simp [effLimit, hl]

/-- C6 witness: `limit=101` errors; no limit returns every row of the
one-task state with `hasMore = false`; a positive limit of 101 would be
capped at 100 by the service clause. -/
theorem limit_clamp_behavior_witness :
    controllerGetAllTasks dbT0 { limit := some 101 } =
        .error (.badRequest "Invalid limit parameter") ∧
      controllerGetAllTasks dbT0 {} =
        .ok { tasks := [taskT0], pagination :=
          { total := 1, count := 1, limit := none, offset := 0, hasMore := false } } ∧
      effLimit (some 101) = some 100 := by
  have h := limit_clamp_behavior dbT0 101
  exact ⟨h.1 (Or.inr (by decide)), h.2.1, h.2.2 (by decide)⟩

end TMS
